import Mathlib

/-!
Verification of the thread-directory / message-history persistence layer
(`LocalThreadListRuntimeCore.tsx`, `LocalStorageHistoryAdapter.ts`).

The TypeScript classes are shallowly embedded as pure functions over explicit
state records.  JavaScript objects (`Record<string, T>`) are modelled as
association lists with unique-key update semantics; mutating methods become
functions `DirState → OpResult α` returning the outcome, the post-state and the
list of externally visible effects (`persistState` calls — each of which is one
storage write plus one subscriber notification — and history-blob removals).
The browser `localStorage` medium for message history is modelled structurally:
a map from storage key to the stored (serialized) history value, with the
JSON encode/decode layer absorbed except for its one lossy aspect, the
serialization of `Date` values to strings (a `Date` is represented by its
canonical ISO string; `JSON.stringify` turns it into a plain string and load
rehydrates plain strings back into dates, exactly as the source does).
-/

/-! ## Association-list helpers (model of JavaScript object records) -/

/-- Lookup of `obj[k]` in a JavaScript object modelled as an association list. -/
def getRecord {β : Type} (l : List (String × β)) (k : String) : Option β :=
  match l with
  | [] => none
  | (k', v) :: rest => if k' = k then some v else getRecord rest k

/-- Assignment `obj[k] = v`: replaces the existing binding or appends a new one. -/
def setRecord {β : Type} (l : List (String × β)) (k : String) (v : β) :
    List (String × β) :=
  match l with
  | [] => [(k, v)]
  | (k', v') :: rest => if k' = k then (k, v) :: rest else (k', v') :: setRecord rest k v

/-- Removal `delete obj[k]`. -/
def delRecord {β : Type} (l : List (String × β)) (k : String) : List (String × β) :=
  match l with
  | [] => []
  | (k', v') :: rest => if k' = k then delRecord rest k else (k', v') :: delRecord rest k

/-- `array.splice(array.indexOf(x), 1)`: removes the first occurrence of `x`. -/
def eraseFirst (l : List String) (x : String) : List String :=
  match l with
  | [] => []
  | y :: ys => if y = x then ys else y :: eraseFirst ys x

/-- Number of occurrences of `x` in `l`. -/
def countOcc : List String → String → Nat
  | [], _ => 0
  | y :: ys, x => (if y = x then 1 else 0) + countOcc ys x

/-! ## Thread Directory data model (`LocalThreadListRuntimeCore`) -/

/-- `Omit<ThreadListItemCoreState, "runtime">`: per-thread metadata. The
source stores `status` as the string literals `"regular"` / `"archived"`. -/
structure ThreadMetadata where
  threadId : String
  status : String
  title : String
  deriving DecidableEq, Repr

def DEFAULT_THREAD_ID : String := "__DEFAULT_ID__"

def DEFAULT_THREAD_METADATA : ThreadMetadata :=
  { threadId := DEFAULT_THREAD_ID, status := "regular", title := "Default Thread" }

/-- The in-memory state of `LocalThreadListRuntimeCore`: the four directory
fields plus the runtime-instance memoization cache.  Runtime handles are
modelled as distinct `Nat` tokens drawn from `nextRuntimeToken`, so "the same
instance" is token equality and "a new construction" increments the counter. -/
structure DirState where
  mainThreadId : String
  threadIds : List String
  archivedThreadIds : List String
  threadMetadata : List (String × ThreadMetadata)
  threadRuntimeInstances : List (String × Nat)
  nextRuntimeToken : Nat
  deriving DecidableEq, Repr

/-- Error taxonomy of the thrown `Error`s: `invalidOperation` for the
"Cannot archive/delete the main thread" throws, `notFound` for the
"Thread ... not found" throws, `fatalInconsistency` for the
"Missing metadata and not default thread" throw in the runtime registry. -/
inductive DirError where
  | invalidOperation
  | notFound
  | fatalInconsistency
  deriving DecidableEq, Repr

/-- Externally visible side effects of an operation, in chronological order,
in the failure-free run (every `localStorage.setItem` accepted): `persist` is
one successful `persistState()` call = one complete `saveThreadsToLocalStorage`
write of the four directory keys plus one `_notifySubscribers()` notification.
The fallible semantics of the same persist step — the four unguarded
`setItem` calls, any of which the medium may reject (e.g. quota) — is
modelled separately by `persistStateF`/`FEffect` below and drives the
atomicity analysis; `expandEffects` and the `..F_accepting` bridge lemmas
relate the two. -/
inductive Effect where
  | persist
  | removeHistoryBlob (key : String)
  deriving DecidableEq, Repr

/-- Outcome of one method call: the returned value or thrown error, the
post-call in-memory state, and the effects performed before returning. -/
structure OpResult (α : Type) where
  res : Except DirError α
  state : DirState
  effects : List Effect
  deriving Repr

/-! ## Thread Directory construction -/

/-- The four raw `localStorage` entries read at startup; `none` models an
absent key. -/
structure StoredDirectory where
  mainThreadId : Option String
  threadIds : Option (List String)
  archivedThreadIds : Option (List String)
  threadMetadata : Option (List (String × ThreadMetadata))
  deriving DecidableEq, Repr

/-- The loaded snapshot with defaults applied, as in
`loadThreadsFromLocalStorage`. -/
structure LoadedThreads where
  mainThreadId : String
  threadIds : List String
  archivedThreadIds : List String
  threadMetadata : List (String × ThreadMetadata)
  deriving DecidableEq, Repr

/-- `loadThreadsFromLocalStorage`: applies the source's defaults —
`"__DEFAULT_ID__"` for the main id, `'["__DEFAULT_ID__"]'` for the id list,
`[]` and `{}` for the archived list and the metadata map. -/
def loadThreadsFromLocalStorage (stored : StoredDirectory) : LoadedThreads :=
  { mainThreadId := stored.mainThreadId.getD DEFAULT_THREAD_ID
    threadIds := stored.threadIds.getD [DEFAULT_THREAD_ID]
    archivedThreadIds := stored.archivedThreadIds.getD []
    threadMetadata := stored.threadMetadata.getD [] }

/-- The `LocalThreadListRuntimeCore` constructor body after loading: the two
self-heal branches (lines 84-100 of the source), returning the initial state
and the effects committed.  The first branch fires only when the default
metadata is missing AND the default id is absent from the id list (the
source's `&&`); the inner membership test is translated as written even
though it is always true under that guard. -/
def mkLocalThreadListRuntimeCore (initialState : LoadedThreads) :
    DirState × List Effect :=
  let s0 : DirState :=
    { mainThreadId := initialState.mainThreadId
      threadIds := initialState.threadIds
      archivedThreadIds := initialState.archivedThreadIds
      threadMetadata := initialState.threadMetadata
      threadRuntimeInstances := []
      nextRuntimeToken := 0 }
  if (getRecord s0.threadMetadata DEFAULT_THREAD_ID).isNone ∧
      DEFAULT_THREAD_ID ∉ s0.threadIds then
    let s1 := if DEFAULT_THREAD_ID ∈ s0.threadIds then s0
      else { s0 with threadIds := DEFAULT_THREAD_ID :: s0.threadIds }
    let s2 := { s1 with
      threadMetadata := setRecord s1.threadMetadata DEFAULT_THREAD_ID DEFAULT_THREAD_METADATA }
    let s3 := { s2 with mainThreadId := DEFAULT_THREAD_ID }
    (s3, [Effect.persist])
  else if (getRecord s0.threadMetadata s0.mainThreadId).isNone then
    let s1 := { s0 with mainThreadId := DEFAULT_THREAD_ID }
    let s2 := if DEFAULT_THREAD_ID ∈ s1.threadIds then s1
      else { s1 with
        threadIds := DEFAULT_THREAD_ID :: s1.threadIds
        threadMetadata := setRecord s1.threadMetadata DEFAULT_THREAD_ID DEFAULT_THREAD_METADATA }
    (s2, [Effect.persist])
  else (s0, [])

/-! ## Thread Directory queries -/

/-- The `dedupe` loop of the `threadIds` getter: keep first occurrences. -/
def dedupKeepFirst (l : List String) : List String :=
  l.foldl (fun acc id => if id ∈ acc then acc else acc ++ [id]) []

/-- The `threadIds` getter (pure): main id first, then regular ids that are
neither archived nor the main id, deduplicated keeping first occurrences. -/
def threadIdsGetter (s : DirState) : List String :=
  let regularIds := s.threadIds.filter
    (fun id => decide (id ∉ s.archivedThreadIds ∧ id ≠ s.mainThreadId))
  let finalIds := s.mainThreadId :: regularIds
  dedupKeepFirst finalIds

/-- The `archivedThreadIds` getter (pure). -/
def archivedThreadIdsGetter (s : DirState) : List String :=
  s.archivedThreadIds

/-- The `mainThreadId` getter: the self-healing read.  If the main id has no
metadata it resets to the default id, synthesizes default metadata if missing,
ensures the default id is listed and not archived, and persists. -/
def mainThreadIdGetter (s : DirState) : String × DirState × List Effect :=
  if (getRecord s.threadMetadata s.mainThreadId).isNone then
    let s1 := { s with mainThreadId := DEFAULT_THREAD_ID }
    let s2 := if (getRecord s1.threadMetadata DEFAULT_THREAD_ID).isNone then
        { s1 with
          threadMetadata := setRecord s1.threadMetadata DEFAULT_THREAD_ID DEFAULT_THREAD_METADATA }
      else s1
    let s3 := if DEFAULT_THREAD_ID ∈ s2.threadIds then s2
      else { s2 with threadIds := DEFAULT_THREAD_ID :: s2.threadIds }
    let s4 := { s3 with
      archivedThreadIds := s3.archivedThreadIds.filter (fun id => decide (id ≠ DEFAULT_THREAD_ID)) }
    (DEFAULT_THREAD_ID, s4, [Effect.persist])
  else (s.mainThreadId, s, [])

/-- `getItemById`: pure metadata lookup. -/
def getItemById (s : DirState) (threadId : String) : Option ThreadMetadata :=
  getRecord s.threadMetadata threadId

/-! ## Thread Runtime Registry -/

/-- The instance-construction step shared by all `getOrCreateThreadRuntime`
paths: calls the factory (modelled as drawing a fresh token) and memoizes the
handle. `eff` carries effects performed before construction. -/
def createRuntime (s : DirState) (threadId : String) (eff : List Effect) :
    OpResult Nat :=
  let token := s.nextRuntimeToken
  { res := Except.ok token
    state := { s with
      threadRuntimeInstances := setRecord s.threadRuntimeInstances threadId token
      nextRuntimeToken := token + 1 }
    effects := eff }

/-- `getOrCreateThreadRuntime`: memoization cache with the missing-metadata
recovery from the source — synthesize default metadata for the default id
(persisting), otherwise purge the inconsistent id from both id lists, persist,
and throw. -/
def getOrCreateThreadRuntime (s : DirState) (threadId : String) : OpResult Nat :=
  match getRecord s.threadRuntimeInstances threadId with
  | some inst => { res := Except.ok inst, state := s, effects := [] }
  | none =>
    match getRecord s.threadMetadata threadId with
    | some _ => createRuntime s threadId []
    | none =>
      if threadId = DEFAULT_THREAD_ID then
        let s1 := { s with
          threadMetadata := setRecord s.threadMetadata DEFAULT_THREAD_ID DEFAULT_THREAD_METADATA }
        let s2 := if DEFAULT_THREAD_ID ∈ s1.threadIds then s1
          else { s1 with threadIds := DEFAULT_THREAD_ID :: s1.threadIds }
        createRuntime s2 threadId [Effect.persist]
      else
        let s1 := { s with
          threadIds := s.threadIds.filter (fun id => decide (id ≠ threadId))
          archivedThreadIds := s.archivedThreadIds.filter (fun id => decide (id ≠ threadId)) }
        { res := Except.error DirError.fatalInconsistency
          state := s1
          effects := [Effect.persist] }

/-- `getMainThreadRuntimeCore`: note the source reads the raw field
`this._mainThreadId`, not the self-healing getter. -/
def getMainThreadRuntimeCore (s : DirState) : OpResult Nat :=
  getOrCreateThreadRuntime s s.mainThreadId

/-- `getThreadRuntimeCore`: throws NotFound before touching anything. -/
def getThreadRuntimeCore (s : DirState) (threadId : String) : OpResult Nat :=
  match getRecord s.threadMetadata threadId with
  | none => { res := Except.error DirError.notFound, state := s, effects := [] }
  | some _ => getOrCreateThreadRuntime s threadId

/-! ## Thread Directory mutations -/

/-- `unarchive`: NotFound if unknown; no-op if not archived; else set status
`"regular"`, splice the first occurrence out of the archived list, append to
the regular list if absent, persist. -/
def unarchive (s : DirState) (threadId : String) : OpResult Unit :=
  match getRecord s.threadMetadata threadId with
  | none => { res := Except.error DirError.notFound, state := s, effects := [] }
  | some meta =>
    if threadId ∉ s.archivedThreadIds then
      { res := Except.ok (), state := s, effects := [] }
    else
      let s1 := { s with
        threadMetadata := setRecord s.threadMetadata threadId { meta with status := "regular" } }
      let s2 := { s1 with archivedThreadIds := eraseFirst s1.archivedThreadIds threadId }
      let s3 := if threadId ∈ s2.threadIds then s2
        else { s2 with threadIds := s2.threadIds ++ [threadId] }
      { res := Except.ok (), state := s3, effects := [Effect.persist] }

/-- `archive`: InvalidOperation on the main thread; NotFound if unknown;
no-op if already archived; else set status `"archived"`, remove from the
regular list, push onto the archived list, persist. -/
def archive (s : DirState) (threadId : String) : OpResult Unit :=
  if threadId = s.mainThreadId then
    { res := Except.error DirError.invalidOperation, state := s, effects := [] }
  else
    match getRecord s.threadMetadata threadId with
    | none => { res := Except.error DirError.notFound, state := s, effects := [] }
    | some meta =>
      if threadId ∈ s.archivedThreadIds then
        { res := Except.ok (), state := s, effects := [] }
      else
        let s1 := { s with
          threadMetadata := setRecord s.threadMetadata threadId { meta with status := "archived" } }
        let s2 := { s1 with threadIds := s1.threadIds.filter (fun id => decide (id ≠ threadId)) }
        let s3 := { s2 with archivedThreadIds := s2.archivedThreadIds ++ [threadId] }
        { res := Except.ok (), state := s3, effects := [Effect.persist] }

/-- `delete`: InvalidOperation on the main thread; silent no-op if unknown;
else remove the record from all three structures, best-effort remove the
thread's history blob, persist. -/
def delete (s : DirState) (threadId : String) : OpResult Unit :=
  if threadId = s.mainThreadId then
    { res := Except.error DirError.invalidOperation, state := s, effects := [] }
  else
    match getRecord s.threadMetadata threadId with
    | none => { res := Except.ok (), state := s, effects := [] }
    | some _ =>
      let s1 := { s with threadMetadata := delRecord s.threadMetadata threadId }
      let s2 := { s1 with
        threadIds := s1.threadIds.filter (fun id => decide (id ≠ threadId))
        archivedThreadIds := s1.archivedThreadIds.filter (fun id => decide (id ≠ threadId)) }
      { res := Except.ok (), state := s2
        effects := [Effect.removeHistoryBlob ("assistant-thread-" ++ threadId ++ "-messages"),
          Effect.persist] }

/-- The `{ remoteId, externalId }` pair returned by the thread-initialization
operation. -/
structure InitializeResult where
  remoteId : String
  externalId : Option String
  deriving DecidableEq, Repr

/-- The source's `initialize` method: idempotent thread creation. If metadata
already exists, returns the identifiers without mutating; otherwise creates a
`"regular"` record titled `"New Thread"`, appends the id to the regular list
if absent, removes it from the archived list, and persists. -/
def initializeThread (s : DirState) (threadId : String) : OpResult InitializeResult :=
  match getRecord s.threadMetadata threadId with
  | some _ =>
    { res := Except.ok { remoteId := threadId, externalId := none }
      state := s, effects := [] }
  | none =>
    let s1 := { s with
      threadMetadata := setRecord s.threadMetadata threadId
        { threadId := threadId, status := "regular", title := "New Thread" } }
    let s2 := if threadId ∈ s1.threadIds then s1
      else { s1 with threadIds := s1.threadIds ++ [threadId] }
    let s3 := { s2 with
      archivedThreadIds := s2.archivedThreadIds.filter (fun id => decide (id ≠ threadId)) }
    { res := Except.ok { remoteId := threadId, externalId := none }
      state := s3, effects := [Effect.persist] }

/-- `rename`: NotFound if unknown; else replace the title in place, persist. -/
def rename (s : DirState) (threadId : String) (newTitle : String) : OpResult Unit :=
  match getRecord s.threadMetadata threadId with
  | none => { res := Except.error DirError.notFound, state := s, effects := [] }
  | some meta =>
    { res := Except.ok ()
      state := { s with
        threadMetadata := setRecord s.threadMetadata threadId { meta with title := newTitle } }
      effects := [Effect.persist] }

/-- `` `Thread ${threadId.substring(0, 5)}` ``: the placeholder title derived
from the id. -/
def genTitleFor (threadId : String) : String :=
  "Thread " ++ threadId.take 5

/-- `generateTitle`: NotFound if unknown; applies the derived title via
`rename` when the title is empty or the `"New Thread"` placeholder, else a
no-op. -/
def generateTitle (s : DirState) (threadId : String) : OpResult Unit :=
  match getRecord s.threadMetadata threadId with
  | none => { res := Except.error DirError.notFound, state := s, effects := [] }
  | some meta =>
    if meta.title = "" ∨ meta.title = "New Thread" then
      rename s threadId (genTitleFor threadId)
    else
      { res := Except.ok (), state := s, effects := [] }

/-- `switchToThread`: no-op if already main; NotFound if unknown; unarchives
first (its own committed step) if archived; then sets the main id, ensures a
runtime exists, persists.  Errors from the inner calls propagate as in the
source's `await`/call semantics. -/
def switchToThread (s : DirState) (threadId : String) : OpResult Unit :=
  if s.mainThreadId = threadId then
    { res := Except.ok (), state := s, effects := [] }
  else
    match getRecord s.threadMetadata threadId with
    | none => { res := Except.error DirError.notFound, state := s, effects := [] }
    | some _ =>
      let r1 : OpResult Unit :=
        if threadId ∈ s.archivedThreadIds then unarchive s threadId
        else { res := Except.ok (), state := s, effects := [] }
      match r1.res with
      | Except.error e =>
        { res := Except.error e, state := r1.state, effects := r1.effects }
      | Except.ok _ =>
        let s1 := { r1.state with mainThreadId := threadId }
        let r2 := getOrCreateThreadRuntime s1 threadId
        match r2.res with
        | Except.error e =>
          { res := Except.error e, state := r2.state, effects := r1.effects ++ r2.effects }
        | Except.ok _ =>
          { res := Except.ok (), state := r2.state
            effects := r1.effects ++ r2.effects ++ [Effect.persist] }

/-- `switchToNewThread`, parameterized by the id produced by `generateId()`
(an external id generator): initialize, set main, ensure runtime, persist. -/
def switchToNewThread (s : DirState) (newThreadId : String) : OpResult Unit :=
  let r1 := initializeThread s newThreadId
  match r1.res with
  | Except.error e => { res := Except.error e, state := r1.state, effects := r1.effects }
  | Except.ok _ =>
    let s1 := { r1.state with mainThreadId := newThreadId }
    let r2 := getOrCreateThreadRuntime s1 newThreadId
    match r2.res with
    | Except.error e =>
      { res := Except.error e, state := r2.state, effects := r1.effects ++ r2.effects }
    | Except.ok _ =>
      { res := Except.ok (), state := r2.state
        effects := r1.effects ++ r2.effects ++ [Effect.persist] }

/-! ## Message History Store (`LocalStorageHistoryAdapter`) -/

/-- The dynamic type of the `createdAt` field as it flows through
`localStorage`: a structured `Date` (identified with its canonical ISO
string, which is what `JSON.stringify` emits for it and what
`new Date(string)` rebuilds it from) or a plain string. -/
inductive DateVal where
  | date (iso : String)
  | str (s : String)
  deriving DecidableEq, Repr

/-- A `ThreadMessage` as the adapter sees it: `createdAt` is the one field it
inspects and rewrites; `id` is the message identifier that `headId`/`parentId`
reference; every other field is carried opaquely in `payload`. -/
structure ThreadMessage where
  id : String
  payload : String
  createdAt : DateVal
  deriving DecidableEq, Repr

/-- One `{ message, parentId }` entry of the stored message list. -/
structure RepositoryEntry where
  message : ThreadMessage
  parentId : Option String
  deriving DecidableEq, Repr

/-- `ExportedMessageRepository` / `LocalStorageThreadHistory`: the whole-tree
snapshot with the movable head. -/
structure ExportedMessageRepository where
  messages : List RepositoryEntry
  headId : Option String
  deriving DecidableEq, Repr

/-- The `localStorage` medium as seen by the history adapter: storage key to
stored (serialized) history blob.  JSON text encoding is absorbed: a stored
blob is the structural value `JSON.parse` would yield, with dates already
turned into strings by `JSON.stringify`. -/
abbrev HistoryStorage := List (String × ExportedMessageRepository)

/-- Why the medium rejected a write: the distinguished
`DOMException QuotaExceededError` or any other failure. -/
inductive StorageFailure where
  | quotaExceeded
  | other
  deriving DecidableEq, Repr

/-- The adapter's console output, kept so "logged" and "surfaced to the
caller" stay distinguishable. -/
inductive HistoryLog where
  | warnNoData
  | saveError (failure : StorageFailure)
  | quotaWarning
  | appendNoOp
  | updateNoOp
  deriving DecidableEq, Repr

/-- Outcome of one adapter call: the value the promise resolves with (or the
error it rejects with), the post-call storage, and the console logs. -/
structure HistoryResult (α : Type) where
  res : Except StorageFailure α
  storage : HistoryStorage
  logs : List HistoryLog
  deriving Repr

/-- `` `${HISTORY_STORAGE_KEY_PREFIX}${threadId}${HISTORY_STORAGE_KEY_SUFFIX}` `` -/
def storageKey (threadId : String) : String :=
  "assistant-thread-" ++ threadId ++ "-messages"

/-- What `JSON.stringify` does to a `createdAt` value: a `Date` serializes to
its ISO string, a plain string stays a string. -/
def serializeDate : DateVal → DateVal
  | DateVal.date iso => DateVal.str iso
  | DateVal.str s => DateVal.str s

/-- The load-time rehydration from the source: `if (createdAt && typeof
createdAt === 'string') createdAt = new Date(createdAt)` — the empty string is
falsy and left alone, any other string becomes a structured date, and a value
that is already a date is untouched. -/
def rehydrateDate : DateVal → DateVal
  | DateVal.date iso => DateVal.date iso
  | DateVal.str s => if s = "" then DateVal.str s else DateVal.date s

/-- Per-entry effect of `JSON.stringify` on the stored message list. -/
def serializeEntry (entry : RepositoryEntry) : RepositoryEntry :=
  { entry with message := { entry.message with createdAt := serializeDate entry.message.createdAt } }

/-- The `rehydratedMessages` map of `load`. -/
def rehydrateEntry (entry : RepositoryEntry) : RepositoryEntry :=
  { entry with message := { entry.message with createdAt := rehydrateDate entry.message.createdAt } }

/-- `JSON.stringify(dataToStore)` at the structural level: dates become
strings, everything else is carried through. -/
def serializeRepository (d : ExportedMessageRepository) : ExportedMessageRepository :=
  { messages := d.messages.map serializeEntry, headId := d.headId }

/-- `localStorage.setItem` on the history medium. -/
def setItem (st : HistoryStorage) (key : String) (value : ExportedMessageRepository) :
    HistoryStorage :=
  setRecord st key value

/-- `saveFullHistory`: warn-and-return when called without repository data;
otherwise serialize and overwrite the blob.  `failure` is the medium's
response to the write (`none` = accepted).  A rejected write is caught: the
error is logged — with an extra distinguished log line for
`QuotaExceededError` — and the promise still resolves normally. -/
def saveFullHistory (failure : Option StorageFailure) (st : HistoryStorage)
    (threadId : String) (repositoryData : Option ExportedMessageRepository) :
    HistoryResult Unit :=
  match repositoryData with
  | none => { res := Except.ok (), storage := st, logs := [HistoryLog.warnNoData] }
  | some d =>
    let dataToStore := serializeRepository d
    match failure with
    | none =>
      { res := Except.ok (), storage := setItem st (storageKey threadId) dataToStore
        logs := [] }
    | some StorageFailure.quotaExceeded =>
      { res := Except.ok (), storage := st
        logs := [HistoryLog.saveError StorageFailure.quotaExceeded, HistoryLog.quotaWarning] }
    | some StorageFailure.other =>
      { res := Except.ok (), storage := st
        logs := [HistoryLog.saveError StorageFailure.other] }

/-- `load`: read the blob for this thread and rehydrate the dates; `none` when
no blob exists.  (The source also maps a `JSON.parse` failure to `null`; the
structural storage model only holds parseable values, so that branch has no
inhabitant here.) -/
def load (st : HistoryStorage) (threadId : String) : Option ExportedMessageRepository :=
  match getRecord st (storageKey threadId) with
  | none => none
  | some parsedData =>
    some { messages := parsedData.messages.map rehydrateEntry
           headId := parsedData.headId }

/-- `append`: logs and relies on an external `saveFullHistory` call — it never
touches storage. -/
def append (st : HistoryStorage) (_threadId : String) (_change : RepositoryEntry) :
    HistoryResult Unit :=
  { res := Except.ok (), storage := st, logs := [HistoryLog.appendNoOp] }

/-- `update`: logs and relies on an external `saveFullHistory` call — it never
touches storage. -/
def update (st : HistoryStorage) (_threadId : String) (_message : ThreadMessage) :
    HistoryResult Unit :=
  { res := Except.ok (), storage := st, logs := [HistoryLog.updateNoOp] }

/-! ## The five Directory invariants of spec §3

These predicates are transcribed from the specification's words; they are the
properties being checked, not part of the embedded program. -/

/-- Key set of the metadata record map. -/
def recordKeys (s : DirState) : List String :=
  s.threadMetadata.map Prod.fst

/-- §3 invariant 1: `mainThreadId` has a record in `records`. -/
def invariantMainHasRecord (s : DirState) : Prop :=
  (getRecord s.threadMetadata s.mainThreadId).isSome

/-- §3 invariant 2: `mainThreadId ∉ archivedIds`. -/
def invariantMainNotArchived (s : DirState) : Prop :=
  s.mainThreadId ∉ s.archivedThreadIds

/-- §3 invariant 3: `regularIds ∪ archivedIds ∪ {mainThreadId}` equals the key
set of `records`, and `regularIds ∩ archivedIds = ∅`. -/
def invariantCoverage (s : DirState) : Prop :=
  (∀ id ∈ recordKeys s, id ∈ s.threadIds ∨ id ∈ s.archivedThreadIds ∨ id = s.mainThreadId) ∧
  (∀ id ∈ s.threadIds, id ∈ recordKeys s) ∧
  (∀ id ∈ s.archivedThreadIds, id ∈ recordKeys s) ∧
  (s.mainThreadId ∈ recordKeys s) ∧
  (∀ id ∈ s.threadIds, id ∉ s.archivedThreadIds)

/-- §3 invariant 4: `records[id].status == Archived ⟺ id ∈ archivedIds`. -/
def invariantStatusMatches (s : DirState) : Prop :=
  ∀ p ∈ s.threadMetadata, (p.2.status = "archived" ↔ p.1 ∈ s.archivedThreadIds)

/-- §3 invariant 5: the externally visible ordering lists `mainThreadId`
first, followed by the deduplicated regular ids with the main id and archived
ids excluded from the trailing portion. -/
def invariantOrdering (s : DirState) : Prop :=
  threadIdsGetter s =
    s.mainThreadId ::
      dedupKeepFirst (s.threadIds.filter
        (fun id => decide (id ∉ s.archivedThreadIds ∧ id ≠ s.mainThreadId)))

/-- All five §3 invariants together. -/
def directoryInvariants (s : DirState) : Prop :=
  invariantMainHasRecord s ∧ invariantMainNotArchived s ∧ invariantCoverage s ∧
    invariantStatusMatches s ∧ invariantOrdering s

instance (s : DirState) : Decidable (invariantMainHasRecord s) := by
  unfold invariantMainHasRecord; infer_instance

instance (s : DirState) : Decidable (invariantMainNotArchived s) := by
  unfold invariantMainNotArchived; infer_instance

instance (s : DirState) : Decidable (invariantCoverage s) := by
  unfold invariantCoverage; infer_instance

instance (s : DirState) : Decidable (invariantStatusMatches s) := by
  unfold invariantStatusMatches; infer_instance

instance (s : DirState) : Decidable (invariantOrdering s) := by
  unfold invariantOrdering; infer_instance

instance (s : DirState) : Decidable (directoryInvariants s) := by
  unfold directoryInvariants; infer_instance

/-! ## Fresh-process startup -/

/-- A fresh process: none of the four directory keys exists in localStorage. -/
def freshStoredDirectory : StoredDirectory :=
  { mainThreadId := none, threadIds := none
    archivedThreadIds := none, threadMetadata := none }

/-- The constructor run on a fresh process. -/
def freshConstructed : DirState × List Effect :=
  mkLocalThreadListRuntimeCore (loadThreadsFromLocalStorage freshStoredDirectory)

/-! ## Concrete states used by witnesses and counterexamples -/

/-- A directory with the default thread as main and one extra regular
thread `"t1"`. -/
def roundTripState : DirState :=
  { mainThreadId := "__DEFAULT_ID__"
    threadIds := ["__DEFAULT_ID__", "t1"]
    archivedThreadIds := []
    threadMetadata := [("__DEFAULT_ID__", DEFAULT_THREAD_METADATA),
      ("t1", { threadId := "t1", status := "regular", title := "Trip" })]
    threadRuntimeInstances := []
    nextRuntimeToken := 0 }

/-- A directory with the default thread as main and one archived thread
`"t2"`. -/
def archivedSwitchState : DirState :=
  { mainThreadId := "__DEFAULT_ID__"
    threadIds := ["__DEFAULT_ID__"]
    archivedThreadIds := ["t2"]
    threadMetadata := [("__DEFAULT_ID__", DEFAULT_THREAD_METADATA),
      ("t2", { threadId := "t2", status := "archived", title := "Arch" })]
    threadRuntimeInstances := []
    nextRuntimeToken := 0 }

/-- A corrupted directory whose main id `"ghost"` appears in the id list but
has no metadata record (e.g. a partially cleared localStorage). -/
def ghostMainState : DirState :=
  { mainThreadId := "ghost"
    threadIds := ["ghost", "__DEFAULT_ID__"]
    archivedThreadIds := []
    threadMetadata := [("__DEFAULT_ID__", DEFAULT_THREAD_METADATA)]
    threadRuntimeInstances := []
    nextRuntimeToken := 0 }

/-- A directory state with one unknown id `"nope"` absent everywhere, used to
exercise error paths on concrete inputs. -/
def plainState : DirState :=
  { mainThreadId := "__DEFAULT_ID__"
    threadIds := ["__DEFAULT_ID__"]
    archivedThreadIds := []
    threadMetadata := [("__DEFAULT_ID__", DEFAULT_THREAD_METADATA)]
    threadRuntimeInstances := []
    nextRuntimeToken := 0 }

/-- The three-node chain `n1 ← n2 ← n3` with `headId = n3` from the spec's
history round-trip property, with structured (date-valued) timestamps. -/
def chainTree : ExportedMessageRepository :=
  { messages :=
      [ { message := { id := "n1", payload := "hello", createdAt := DateVal.date "2024-01-01T00:00:00.000Z" }, parentId := none },
        { message := { id := "n2", payload := "world", createdAt := DateVal.date "2024-01-01T00:00:01.000Z" }, parentId := some "n1" },
        { message := { id := "n3", payload := "again", createdAt := DateVal.date "2024-01-01T00:00:02.000Z" }, parentId := some "n2" } ]
    headId := some "n3" }

/-- `true` iff a `createdAt` value is a structured date with the nonempty
canonical representation every real date has. -/
def isStructuredDate : DateVal → Bool
  | DateVal.date iso => iso ≠ ""
  | DateVal.str _ => false

/-- All timestamps of a repository are structured dates. -/
def structuredTimestamps (d : ExportedMessageRepository) : Prop :=
  ∀ entry ∈ d.messages, isStructuredDate entry.message.createdAt = true

instance (d : ExportedMessageRepository) : Decidable (structuredTimestamps d) := by
  unfold structuredTimestamps
  infer_instance

/-- Atomicity with respect to failure: if the call ended in a thrown error,
the in-memory state is unchanged and no effect (persist, notification,
history-blob removal) was performed. -/
def atomicOutcome {α : Type} (r : OpResult α) (s : DirState) : Prop :=
  ∀ e, r.res = Except.error e → r.state = s ∧ r.effects = []

/-! ## Fallible-persist semantics of the Directory mutations

`persistState` is not infallible in the source: `saveThreadsToLocalStorage`
performs four unguarded `localStorage.setItem` calls, and the medium may
reject any of them (the same `QuotaExceededError` the history adapter
catches).  Because every mutation method mutates the in-memory fields first
and calls `persistState()` last, a rejected persist makes the method throw
after the in-memory mutation, with the keys preceding the failing one already
written and no notification fired.  The `..F` definitions below embed the
same source methods with this fallible medium made explicit; the plain
definitions above are their restriction to a medium that accepts every
write (see the `..F_accepting` bridge lemmas). -/

/-- The four directory keys written by `saveThreadsToLocalStorage`, in write
order: `assistant_mainThreadId`, `assistant_threadIds`,
`assistant_archivedThreadIds`, `assistant_threadMetadata`. -/
inductive DirKey where
  | mainKey
  | idsKey
  | archivedKey
  | metadataKey
  deriving DecidableEq, Repr

/-- The write order of `saveThreadsToLocalStorage`. -/
def persistKeyOrder : List DirKey :=
  [DirKey.mainKey, DirKey.idsKey, DirKey.archivedKey, DirKey.metadataKey]

/-- The medium's response to one `persistState` call: accept all four writes,
or throw on the `(writtenBefore+1)`-th `setItem` after accepting the first
`writtenBefore` of them. -/
inductive PersistOutcome where
  | ok
  | failAt (writtenBefore : Fin 4) (f : StorageFailure)
  deriving DecidableEq, Repr

/-- Externally visible events of a fallible run: a successful directory-key
write, a subscriber notification, or a history-blob removal. -/
inductive FEffect where
  | write (key : DirKey)
  | notify
  | removeHistoryBlob (key : String)
  deriving DecidableEq, Repr

/-- What a fallible Directory method can throw: one of its own `Error`s or a
storage failure propagating out of `persistState`. -/
inductive FDirError where
  | dir (e : DirError)
  | storage (f : StorageFailure)
  deriving DecidableEq, Repr

/-- Outcome of one fallible method call: result or thrown error, post-call
in-memory state, events performed, and the unconsumed remainder of the
medium-response supply. -/
structure FOpResult (α : Type) where
  res : Except FDirError α
  state : DirState
  effects : List FEffect
  media : List PersistOutcome
  deriving Repr

/-- Outcome of one `persistState()` call. -/
structure PersistResult where
  res : Except StorageFailure Unit
  effects : List FEffect
  media : List PersistOutcome
  deriving Repr

/-- `persistState()` against the fallible medium, consuming one response from
the supply (an exhausted supply means the medium accepts): on acceptance all
four keys are written and subscribers are notified; on rejection only the
keys before the failing one were written and no notification fires (the
throw happens inside `saveThreadsToLocalStorage`, before
`_notifySubscribers`). -/
def persistStateF (media : List PersistOutcome) : PersistResult :=
  match media with
  | [] =>
    { res := Except.ok ()
      effects := persistKeyOrder.map FEffect.write ++ [FEffect.notify]
      media := [] }
  | PersistOutcome.ok :: rest =>
    { res := Except.ok ()
      effects := persistKeyOrder.map FEffect.write ++ [FEffect.notify]
      media := rest }
  | PersistOutcome.failAt k f :: rest =>
    { res := Except.error f
      effects := (persistKeyOrder.take k.val).map FEffect.write
      media := rest }

/-- Fallible variant of the instance-construction step (it performs no
persist itself). -/
def createRuntimeF (s : DirState) (threadId : String) (eff : List FEffect)
    (media : List PersistOutcome) : FOpResult Nat :=
  let token := s.nextRuntimeToken
  { res := Except.ok token
    state := { s with
      threadRuntimeInstances := setRecord s.threadRuntimeInstances threadId token
      nextRuntimeToken := token + 1 }
    effects := eff
    media := media }

/-- `getOrCreateThreadRuntime` with the fallible persist: the default-id heal
persists before constructing, and the purge path persists before throwing —
if that persist itself is rejected, the storage failure propagates instead of
the `FatalInconsistency` error. -/
def getOrCreateThreadRuntimeF (s : DirState) (threadId : String)
    (media : List PersistOutcome) : FOpResult Nat :=
  match getRecord s.threadRuntimeInstances threadId with
  | some inst => { res := Except.ok inst, state := s, effects := [], media := media }
  | none =>
    match getRecord s.threadMetadata threadId with
    | some _ => createRuntimeF s threadId [] media
    | none =>
      if threadId = DEFAULT_THREAD_ID then
        let s1 := { s with
          threadMetadata := setRecord s.threadMetadata DEFAULT_THREAD_ID DEFAULT_THREAD_METADATA }
        let s2 := if DEFAULT_THREAD_ID ∈ s1.threadIds then s1
          else { s1 with threadIds := DEFAULT_THREAD_ID :: s1.threadIds }
        let p := persistStateF media
        match p.res with
        | Except.error f =>
          { res := Except.error (FDirError.storage f), state := s2
            effects := p.effects, media := p.media }
        | Except.ok _ => createRuntimeF s2 threadId p.effects p.media
      else
        let s1 := { s with
          threadIds := s.threadIds.filter (fun id => decide (id ≠ threadId))
          archivedThreadIds := s.archivedThreadIds.filter (fun id => decide (id ≠ threadId)) }
        let p := persistStateF media
        match p.res with
        | Except.error f =>
          { res := Except.error (FDirError.storage f), state := s1
            effects := p.effects, media := p.media }
        | Except.ok _ =>
          { res := Except.error (FDirError.dir DirError.fatalInconsistency), state := s1
            effects := p.effects, media := p.media }

/-- `unarchive` with the fallible persist. -/
def unarchiveF (s : DirState) (threadId : String) (media : List PersistOutcome) :
    FOpResult Unit :=
  match getRecord s.threadMetadata threadId with
  | none =>
    { res := Except.error (FDirError.dir DirError.notFound), state := s
      effects := [], media := media }
  | some meta =>
    if threadId ∉ s.archivedThreadIds then
      { res := Except.ok (), state := s, effects := [], media := media }
    else
      let s1 := { s with
        threadMetadata := setRecord s.threadMetadata threadId { meta with status := "regular" } }
      let s2 := { s1 with archivedThreadIds := eraseFirst s1.archivedThreadIds threadId }
      let s3 := if threadId ∈ s2.threadIds then s2
        else { s2 with threadIds := s2.threadIds ++ [threadId] }
      let p := persistStateF media
      match p.res with
      | Except.ok _ =>
        { res := Except.ok (), state := s3, effects := p.effects, media := p.media }
      | Except.error f =>
        { res := Except.error (FDirError.storage f), state := s3
          effects := p.effects, media := p.media }

/-- `archive` with the fallible persist. -/
def archiveF (s : DirState) (threadId : String) (media : List PersistOutcome) :
    FOpResult Unit :=
  if threadId = s.mainThreadId then
    { res := Except.error (FDirError.dir DirError.invalidOperation), state := s
      effects := [], media := media }
  else
    match getRecord s.threadMetadata threadId with
    | none =>
      { res := Except.error (FDirError.dir DirError.notFound), state := s
        effects := [], media := media }
    | some meta =>
      if threadId ∈ s.archivedThreadIds then
        { res := Except.ok (), state := s, effects := [], media := media }
      else
        let s1 := { s with
          threadMetadata := setRecord s.threadMetadata threadId { meta with status := "archived" } }
        let s2 := { s1 with threadIds := s1.threadIds.filter (fun id => decide (id ≠ threadId)) }
        let s3 := { s2 with archivedThreadIds := s2.archivedThreadIds ++ [threadId] }
        let p := persistStateF media
        match p.res with
        | Except.ok _ =>
          { res := Except.ok (), state := s3, effects := p.effects, media := p.media }
        | Except.error f =>
          { res := Except.error (FDirError.storage f), state := s3
            effects := p.effects, media := p.media }

/-- `delete` with the fallible persist (the history-blob removal is inside
its own try/catch in the source, so it is recorded and never fatal). -/
def deleteF (s : DirState) (threadId : String) (media : List PersistOutcome) :
    FOpResult Unit :=
  if threadId = s.mainThreadId then
    { res := Except.error (FDirError.dir DirError.invalidOperation), state := s
      effects := [], media := media }
  else
    match getRecord s.threadMetadata threadId with
    | none => { res := Except.ok (), state := s, effects := [], media := media }
    | some _ =>
      let s1 := { s with threadMetadata := delRecord s.threadMetadata threadId }
      let s2 := { s1 with
        threadIds := s1.threadIds.filter (fun id => decide (id ≠ threadId))
        archivedThreadIds := s1.archivedThreadIds.filter (fun id => decide (id ≠ threadId)) }
      let p := persistStateF media
      match p.res with
      | Except.ok _ =>
        { res := Except.ok (), state := s2
          effects := FEffect.removeHistoryBlob ("assistant-thread-" ++ threadId ++ "-messages")
            :: p.effects
          media := p.media }
      | Except.error f =>
        { res := Except.error (FDirError.storage f), state := s2
          effects := FEffect.removeHistoryBlob ("assistant-thread-" ++ threadId ++ "-messages")
            :: p.effects
          media := p.media }

/-- The thread-initialization operation with the fallible persist. -/
def initializeThreadF (s : DirState) (threadId : String) (media : List PersistOutcome) :
    FOpResult InitializeResult :=
  match getRecord s.threadMetadata threadId with
  | some _ =>
    { res := Except.ok { remoteId := threadId, externalId := none }
      state := s, effects := [], media := media }
  | none =>
    let s1 := { s with
      threadMetadata := setRecord s.threadMetadata threadId
        { threadId := threadId, status := "regular", title := "New Thread" } }
    let s2 := if threadId ∈ s1.threadIds then s1
      else { s1 with threadIds := s1.threadIds ++ [threadId] }
    let s3 := { s2 with
      archivedThreadIds := s2.archivedThreadIds.filter (fun id => decide (id ≠ threadId)) }
    let p := persistStateF media
    match p.res with
    | Except.ok _ =>
      { res := Except.ok { remoteId := threadId, externalId := none }
        state := s3, effects := p.effects, media := p.media }
    | Except.error f =>
      { res := Except.error (FDirError.storage f), state := s3
        effects := p.effects, media := p.media }

/-- `rename` with the fallible persist. -/
def renameF (s : DirState) (threadId newTitle : String) (media : List PersistOutcome) :
    FOpResult Unit :=
  match getRecord s.threadMetadata threadId with
  | none =>
    { res := Except.error (FDirError.dir DirError.notFound), state := s
      effects := [], media := media }
  | some meta =>
    let s1 := { s with
      threadMetadata := setRecord s.threadMetadata threadId { meta with title := newTitle } }
    let p := persistStateF media
    match p.res with
    | Except.ok _ =>
      { res := Except.ok (), state := s1, effects := p.effects, media := p.media }
    | Except.error f =>
      { res := Except.error (FDirError.storage f), state := s1
        effects := p.effects, media := p.media }

/-- `generateTitle` with the fallible persist (delegating to `renameF`). -/
def generateTitleF (s : DirState) (threadId : String) (media : List PersistOutcome) :
    FOpResult Unit :=
  match getRecord s.threadMetadata threadId with
  | none =>
    { res := Except.error (FDirError.dir DirError.notFound), state := s
      effects := [], media := media }
  | some meta =>
    if meta.title = "" ∨ meta.title = "New Thread" then
      renameF s threadId (genTitleFor threadId) media
    else
      { res := Except.ok (), state := s, effects := [], media := media }

/-- `switchToThread` with the fallible persist: an error thrown by the inner
`unarchive`, by the registry access or by the final persist propagates at the
point it occurs, leaving behind whatever had been mutated and written by
then. -/
def switchToThreadF (s : DirState) (threadId : String) (media : List PersistOutcome) :
    FOpResult Unit :=
  if s.mainThreadId = threadId then
    { res := Except.ok (), state := s, effects := [], media := media }
  else
    match getRecord s.threadMetadata threadId with
    | none =>
      { res := Except.error (FDirError.dir DirError.notFound), state := s
        effects := [], media := media }
    | some _ =>
      let r1 : FOpResult Unit :=
        if threadId ∈ s.archivedThreadIds then unarchiveF s threadId media
        else { res := Except.ok (), state := s, effects := [], media := media }
      match r1.res with
      | Except.error e =>
        { res := Except.error e, state := r1.state, effects := r1.effects, media := r1.media }
      | Except.ok _ =>
        let s1 := { r1.state with mainThreadId := threadId }
        let r2 := getOrCreateThreadRuntimeF s1 threadId r1.media
        match r2.res with
        | Except.error e =>
          { res := Except.error e, state := r2.state
            effects := r1.effects ++ r2.effects, media := r2.media }
        | Except.ok _ =>
          let p := persistStateF r2.media
          match p.res with
          | Except.ok _ =>
            { res := Except.ok (), state := r2.state
              effects := r1.effects ++ r2.effects ++ p.effects, media := p.media }
          | Except.error f =>
            { res := Except.error (FDirError.storage f), state := r2.state
              effects := r1.effects ++ r2.effects ++ p.effects, media := p.media }

/-- `switchToNewThread` with the fallible persist. -/
def switchToNewThreadF (s : DirState) (newThreadId : String)
    (media : List PersistOutcome) : FOpResult Unit :=
  let r1 := initializeThreadF s newThreadId media
  match r1.res with
  | Except.error e =>
    { res := Except.error e, state := r1.state, effects := r1.effects, media := r1.media }
  | Except.ok _ =>
    let s1 := { r1.state with mainThreadId := newThreadId }
    let r2 := getOrCreateThreadRuntimeF s1 newThreadId r1.media
    match r2.res with
    | Except.error e =>
      { res := Except.error e, state := r2.state
        effects := r1.effects ++ r2.effects, media := r2.media }
    | Except.ok _ =>
      let p := persistStateF r2.media
      match p.res with
      | Except.ok _ =>
        { res := Except.ok (), state := r2.state
          effects := r1.effects ++ r2.effects ++ p.effects, media := p.media }
      | Except.error f =>
        { res := Except.error (FDirError.storage f), state := r2.state
          effects := r1.effects ++ r2.effects ++ p.effects, media := p.media }

/-- Refinement of the failure-free effect trace into the fallible one: a
`persist` is the four key writes followed by the notification. -/
def expandEffects : List Effect → List FEffect
  | [] => []
  | Effect.persist :: rest =>
    persistKeyOrder.map FEffect.write ++ [FEffect.notify] ++ expandEffects rest
  | Effect.removeHistoryBlob k :: rest => FEffect.removeHistoryBlob k :: expandEffects rest

/-- Validation-phase atomicity: whenever the call rejects with one of the
Directory's own errors (as opposed to a propagated storage failure), the
in-memory state is unchanged, no key was written, nobody was notified, and no
medium response was consumed. -/
def validationAtomic {α : Type} (r : FOpResult α) (s : DirState)
    (media : List PersistOutcome) : Prop :=
  ∀ e, r.res = Except.error (FDirError.dir e) →
    r.state = s ∧ r.effects = [] ∧ r.media = media

/-! ## Helper lemmas about the association-list and list primitives -/

theorem getRecord_setRecord_self {β : Type} (l : List (String × β)) (k : String)
    (v : β) : getRecord (setRecord l k v) k = some v := by
  induction l with
  | nil => simp [setRecord, getRecord]
  | cons p rest ih =>
    by_cases h : p.1 = k
    · simp [setRecord, getRecord, h]
    · obtain ⟨k', v'⟩ := p
      simp only at h
      simp [setRecord, getRecord, h, ih]

theorem getRecord_setRecord_ne {β : Type} (l : List (String × β)) (k k' : String)
    (v : β) (h : k' ≠ k) : getRecord (setRecord l k v) k' = getRecord l k' := by
  induction l with
  | nil => simp [setRecord, getRecord, Ne.symm h]
  | cons p rest ih =>
    obtain ⟨a, b⟩ := p
    by_cases ha : a = k
    · subst ha
      simp [setRecord, getRecord, Ne.symm h]
    · simp [setRecord, getRecord, ha, ih]

theorem countOcc_eq_zero_iff_not_mem (l : List String) (x : String) :
    countOcc l x = 0 ↔ x ∉ l := by
  induction l with
  | nil => simp [countOcc]
  | cons y ys ih =>
    by_cases h : y = x
    · subst h
      simp [countOcc]
    · simp [countOcc, h, ih, Ne.symm h]

theorem mem_of_countOcc_eq_one (l : List String) (x : String)
    (h : countOcc l x = 1) : x ∈ l := by
  by_contra hx
  rw [← countOcc_eq_zero_iff_not_mem] at hx
  omega

theorem countOcc_eraseFirst (l : List String) (x : String) :
    countOcc (eraseFirst l x) x = countOcc l x - 1 := by
  induction l with
  | nil => simp [eraseFirst, countOcc]
  | cons y ys ih =>
    by_cases h : y = x
    · subst h
      simp [eraseFirst, countOcc]
    · simp only [eraseFirst, h, if_false, countOcc, ih]
      omega

theorem not_mem_eraseFirst_of_countOcc_eq_one (l : List String) (x : String)
    (h : countOcc l x = 1) : x ∉ eraseFirst l x := by
  rw [← countOcc_eq_zero_iff_not_mem, countOcc_eraseFirst, h]

theorem eraseFirst_append_singleton_of_not_mem (l : List String) (x : String)
    (h : x ∉ l) : eraseFirst (l ++ [x]) x = l := by
  induction l with
  | nil => simp [eraseFirst]
  | cons y ys ih =>
    simp only [List.mem_cons, not_or] at h
    simp [eraseFirst, Ne.symm h.1, ih h.2]

theorem not_mem_filter_ne (l : List String) (x : String) :
    x ∉ l.filter (fun id => decide (id ≠ x)) := by
  intro h
  simp only [List.mem_filter, decide_eq_true_eq] at h
  exact h.2 rfl

/-! ## Claims -/

/-- C1: the claim says the five §3 invariants hold after every committed
Directory mutation, including the initial load/self-heal commit in the
constructor.  Evaluating the constructor on a completely fresh process (no
persisted state, so the loader supplies `threadIds = ["__DEFAULT_ID__"]` and
an empty metadata map) shows the opposite: the second self-heal branch
commits (`persistState`) a state whose `mainThreadId` has no record in
`records` — invariant 1 (and with it invariants 3 and 4) fails right after a
committed mutation, because the first branch's guard requires the default id
to be missing from the id list before it synthesizes the default metadata. -/
theorem c1_constructor_selfheal_commits_invariant_violation :
    freshConstructed.2 = [Effect.persist] ∧
    freshConstructed.1.mainThreadId = DEFAULT_THREAD_ID ∧
    freshConstructed.1.threadMetadata = [] ∧
    ¬ invariantMainHasRecord freshConstructed.1 ∧
    ¬ directoryInvariants freshConstructed.1 := by
  refine ⟨by decide, by decide, by decide, by decide, by decide⟩

/-- C2: the claim says a capacity rejection of the whole-tree save surfaces a
distinct `StorageExhausted` failure to the caller.  In the code the
`QuotaExceededError` is caught and logged (with its own distinguished log
line) but the promise still resolves normally, so the caller observes plain
success: nothing is surfaced, storage is left unwritten, and only the console
logs distinguish the quota case. -/
theorem c2_quota_rejection_swallowed (st : HistoryStorage) (threadId : String)
    (d : ExportedMessageRepository) :
    (saveFullHistory (some StorageFailure.quotaExceeded) st threadId (some d)).res
      = Except.ok () ∧
    (saveFullHistory (some StorageFailure.quotaExceeded) st threadId (some d)).storage = st ∧
    (saveFullHistory (some StorageFailure.quotaExceeded) st threadId (some d)).logs
      = [HistoryLog.saveError StorageFailure.quotaExceeded, HistoryLog.quotaWarning] :=
  ⟨rfl, rfl, rfl⟩

/-- C4: for every Directory state, `archive(mainThreadId)` and
`delete(mainThreadId)` fail with `InvalidOperation` and return the state
bit-for-bit unchanged, with no persist and no notification (empty effect
list). -/
theorem c4_archive_delete_main_invalid_operation (s : DirState) :
    archive s s.mainThreadId =
      { res := Except.error DirError.invalidOperation, state := s, effects := [] } ∧
    delete s s.mainThreadId =
      { res := Except.error DirError.invalidOperation, state := s, effects := [] } := by
  constructor <;> simp [archive, delete]

/-- C9: on a fresh process with no persisted state, `mainThreadId()` returns
the default sentinel id, `threadIds()` returns exactly `[defaultId]`, and
`archivedThreadIds()` returns `[]`. -/
theorem c9_fresh_process_defaults :
    (mainThreadIdGetter freshConstructed.1).1 = DEFAULT_THREAD_ID ∧
    threadIdsGetter freshConstructed.1 = [DEFAULT_THREAD_ID] ∧
    archivedThreadIdsGetter freshConstructed.1 = [] := by
  refine ⟨by decide, by decide, by decide⟩

/-- C10: `append` and `update` leave the persisted history unchanged for
every input, as does `saveFullHistory` called without repository data (for
any medium response); only `saveFullHistory` with actual repository data
writes the serialized blob to storage. -/
theorem c10_append_update_storage_frame (st : HistoryStorage) (threadId : String)
    (change : RepositoryEntry) (message : ThreadMessage)
    (d : ExportedMessageRepository) :
    (append st threadId change).storage = st ∧
    (update st threadId message).storage = st ∧
    (∀ failure, (saveFullHistory failure st threadId none).storage = st) ∧
    (saveFullHistory none st threadId (some d)).storage
      = setItem st (storageKey threadId) (serializeRepository d) :=
  ⟨rfl, rfl, fun _ => rfl, rfl⟩

/-- Characterization of the runtime-registry access when metadata for the id
exists: it succeeds with some handle, performs no effect, changes none of the
four directory fields, and afterwards the registry holds a handle for the
id. -/
theorem getOrCreateThreadRuntime_spec (s : DirState) (threadId : String)
    (meta : ThreadMetadata) (h : getRecord s.threadMetadata threadId = some meta) :
    ∃ token, (getOrCreateThreadRuntime s threadId).res = Except.ok token ∧
      (getOrCreateThreadRuntime s threadId).effects = [] ∧
      (getOrCreateThreadRuntime s threadId).state.mainThreadId = s.mainThreadId ∧
      (getOrCreateThreadRuntime s threadId).state.threadIds = s.threadIds ∧
      (getOrCreateThreadRuntime s threadId).state.archivedThreadIds = s.archivedThreadIds ∧
      (getOrCreateThreadRuntime s threadId).state.threadMetadata = s.threadMetadata ∧
      getRecord (getOrCreateThreadRuntime s threadId).state.threadRuntimeInstances threadId
        = some token := by
  cases hinst : getRecord s.threadRuntimeInstances threadId with
  | some inst =>
    refine ⟨inst, ?_⟩
    simp [getOrCreateThreadRuntime, hinst]
  | none =>
    refine ⟨s.nextRuntimeToken, ?_⟩
    simp [getOrCreateThreadRuntime, hinst, h, createRuntime, getRecord_setRecord_self]

/-- C5: `initialize(id)` is idempotent — after any first call, a second call
returns the same `{ remoteId: id, externalId: absent }` result, leaves the
whole state (in particular `regularIds`, `archivedIds` and the id's record)
untouched, and performs no effect. -/
theorem c5_initialize_idempotent (s : DirState) (threadId : String) :
    (initializeThread (initializeThread s threadId).state threadId).res
      = Except.ok { remoteId := threadId, externalId := none } ∧
    (initializeThread (initializeThread s threadId).state threadId).res
      = (initializeThread s threadId).res ∧
    (initializeThread (initializeThread s threadId).state threadId).state
      = (initializeThread s threadId).state ∧
    (initializeThread (initializeThread s threadId).state threadId).effects = [] := by
  cases h : getRecord s.threadMetadata threadId with
  | some meta => simp [initializeThread, h]
  | none =>
    by_cases hmem : threadId ∈ s.threadIds <;>
      simp [initializeThread, h, hmem, getRecord_setRecord_self]

/-- C6: for a non-main id with a record that is not archived, `archive(id)`
then `unarchive(id)` restores the record's status to `"regular"`, re-appends
the id at the end of the regular sequence, restores the archived list, and
leaves the record's title (and thread id) unchanged. -/
theorem c6_archive_unarchive_roundtrip (s : DirState) (threadId : String)
    (meta : ThreadMetadata)
    (hmain : threadId ≠ s.mainThreadId)
    (hmeta : getRecord s.threadMetadata threadId = some meta)
    (harch : threadId ∉ s.archivedThreadIds) :
    (archive s threadId).res = Except.ok () ∧
    (unarchive (archive s threadId).state threadId).res = Except.ok () ∧
    getRecord (unarchive (archive s threadId).state threadId).state.threadMetadata threadId
      = some { threadId := meta.threadId, status := "regular", title := meta.title } ∧
    (unarchive (archive s threadId).state threadId).state.threadIds
      = s.threadIds.filter (fun id => decide (id ≠ threadId)) ++ [threadId] ∧
    (unarchive (archive s threadId).state threadId).state.archivedThreadIds
      = s.archivedThreadIds := by
  have ha : archive s threadId =
      { res := Except.ok ()
        state := { s with
          threadMetadata := setRecord s.threadMetadata threadId { meta with status := "archived" }
          threadIds := s.threadIds.filter (fun id => decide (id ≠ threadId))
          archivedThreadIds := s.archivedThreadIds ++ [threadId] }
        effects := [Effect.persist] } := by
    simp [archive, hmain, hmeta, harch]
  rw [ha]
  have hnotmem : threadId ∉ s.threadIds.filter (fun id => decide (id ≠ threadId)) :=
    not_mem_filter_ne _ _
  simp [unarchive, getRecord_setRecord_self, hnotmem,
    eraseFirst_append_singleton_of_not_mem _ _ harch]

/-- C6 witness: the round trip on the concrete two-thread directory
`roundTripState` with the regular thread `"t1"`. -/
theorem c6_archive_unarchive_roundtrip_witness :
    (("t1" : String) ≠ roundTripState.mainThreadId ∧
      getRecord roundTripState.threadMetadata "t1"
        = some { threadId := "t1", status := "regular", title := "Trip" } ∧
      ("t1" : String) ∉ roundTripState.archivedThreadIds) ∧
    ((archive roundTripState "t1").res = Except.ok () ∧
      (unarchive (archive roundTripState "t1").state "t1").res = Except.ok () ∧
      getRecord (unarchive (archive roundTripState "t1").state "t1").state.threadMetadata "t1"
        = some { threadId := "t1", status := "regular", title := "Trip" } ∧
      (unarchive (archive roundTripState "t1").state "t1").state.threadIds
        = roundTripState.threadIds.filter (fun id => decide (id ≠ "t1")) ++ ["t1"] ∧
      (unarchive (archive roundTripState "t1").state "t1").state.archivedThreadIds
        = roundTripState.archivedThreadIds) :=
  ⟨⟨by decide, by decide, by decide⟩,
    c6_archive_unarchive_roundtrip roundTripState "t1"
      { threadId := "t1", status := "regular", title := "Trip" }
      (by decide) (by decide) (by decide)⟩

/-- C7: for an id with a record that is archived (exactly once, the archived
list being a set) in a state whose main thread is not archived,
`switchToThread(id)` succeeds; afterwards the id is not archived, it is the
main thread, the registry holds a runtime handle for it, and calling
`switchToThread(id)` again is a complete no-op (same state returned, no
effect, no second runtime constructed). -/
theorem c7_switch_to_archived_thread (s : DirState) (threadId : String)
    (meta : ThreadMetadata)
    (hmeta : getRecord s.threadMetadata threadId = some meta)
    (hcount : countOcc s.archivedThreadIds threadId = 1)
    (hmainarch : s.mainThreadId ∉ s.archivedThreadIds) :
    (switchToThread s threadId).res = Except.ok () ∧
    threadId ∉ (switchToThread s threadId).state.archivedThreadIds ∧
    (switchToThread s threadId).state.mainThreadId = threadId ∧
    (getRecord (switchToThread s threadId).state.threadRuntimeInstances threadId).isSome
      = true ∧
    switchToThread (switchToThread s threadId).state threadId
      = { res := Except.ok (), state := (switchToThread s threadId).state
          effects := [] } := by
  have hmem : threadId ∈ s.archivedThreadIds := mem_of_countOcc_eq_one _ _ hcount
  have hne : ¬ s.mainThreadId = threadId := fun h => hmainarch (h ▸ hmem)
  have hu : unarchive s threadId =
      { res := Except.ok ()
        state := { s with
          threadMetadata := setRecord s.threadMetadata threadId { meta with status := "regular" }
          archivedThreadIds := eraseFirst s.archivedThreadIds threadId
          threadIds := if threadId ∈ s.threadIds then s.threadIds
            else s.threadIds ++ [threadId] }
        effects := [Effect.persist] } := by
    by_cases h2 : threadId ∈ s.threadIds <;> simp [unarchive, hmeta, hmem, h2]
  obtain ⟨token, hres, heff, hmain2, hids2, harch2, hmeta2, hinst2⟩ :=
    getOrCreateThreadRuntime_spec
      { mainThreadId := threadId
        threadIds := if threadId ∈ s.threadIds then s.threadIds else s.threadIds ++ [threadId]
        archivedThreadIds := eraseFirst s.archivedThreadIds threadId
        threadMetadata := setRecord s.threadMetadata threadId { meta with status := "regular" }
        threadRuntimeInstances := s.threadRuntimeInstances
        nextRuntimeToken := s.nextRuntimeToken }
      threadId { meta with status := "regular" } (getRecord_setRecord_self _ _ _)
  have hsw : switchToThread s threadId =
      { res := Except.ok ()
        state := (getOrCreateThreadRuntime
          { mainThreadId := threadId
            threadIds := if threadId ∈ s.threadIds then s.threadIds else s.threadIds ++ [threadId]
            archivedThreadIds := eraseFirst s.archivedThreadIds threadId
            threadMetadata := setRecord s.threadMetadata threadId { meta with status := "regular" }
            threadRuntimeInstances := s.threadRuntimeInstances
            nextRuntimeToken := s.nextRuntimeToken } threadId).state
        effects := [Effect.persist] ++ [] ++ [Effect.persist] } := by
    simp only [switchToThread, if_neg hne, hmeta, if_pos hmem, hu]
    simp [hres, heff]
  rw [hsw]
  refine ⟨rfl, ?_, ?_, ?_, ?_⟩
  · rw [harch2]
    exact not_mem_eraseFirst_of_countOcc_eq_one _ _ hcount
  · rw [hmain2]
  · rw [hinst2]; rfl
  · have hm : (getOrCreateThreadRuntime
        { mainThreadId := threadId
          threadIds := if threadId ∈ s.threadIds then s.threadIds else s.threadIds ++ [threadId]
          archivedThreadIds := eraseFirst s.archivedThreadIds threadId
          threadMetadata := setRecord s.threadMetadata threadId { meta with status := "regular" }
          threadRuntimeInstances := s.threadRuntimeInstances
          nextRuntimeToken := s.nextRuntimeToken } threadId).state.mainThreadId = threadId :=
      hmain2
    simp [switchToThread, hm]

/-- C7 witness: switching to the concrete archived thread `"t2"` of
`archivedSwitchState`. -/
theorem c7_switch_to_archived_thread_witness :
    (getRecord archivedSwitchState.threadMetadata "t2"
        = some { threadId := "t2", status := "archived", title := "Arch" } ∧
      countOcc archivedSwitchState.archivedThreadIds "t2" = 1 ∧
      archivedSwitchState.mainThreadId ∉ archivedSwitchState.archivedThreadIds) ∧
    ((switchToThread archivedSwitchState "t2").res = Except.ok () ∧
      ("t2" : String) ∉ (switchToThread archivedSwitchState "t2").state.archivedThreadIds ∧
      (switchToThread archivedSwitchState "t2").state.mainThreadId = "t2" ∧
      (getRecord (switchToThread archivedSwitchState "t2").state.threadRuntimeInstances
        "t2").isSome = true ∧
      switchToThread (switchToThread archivedSwitchState "t2").state "t2"
        = { res := Except.ok (), state := (switchToThread archivedSwitchState "t2").state
            effects := [] }) :=
  ⟨⟨by decide, by decide, by decide⟩,
    c7_switch_to_archived_thread archivedSwitchState "t2"
      { threadId := "t2", status := "archived", title := "Arch" }
      (by decide) (by decide) (by decide)⟩

/-- Serialization then rehydration is the identity on an entry whose
timestamp is a structured date. -/
theorem rehydrate_serialize_entry (e : RepositoryEntry)
    (h : isStructuredDate e.message.createdAt = true) :
    rehydrateEntry (serializeEntry e) = e := by
  obtain ⟨⟨mid, mp, mc⟩, pid⟩ := e
  cases mc with
  | date iso =>
    simp only [isStructuredDate, decide_eq_true_eq] at h
    simp [serializeEntry, rehydrateEntry, serializeDate, rehydrateDate, h]
  | str s => simp [isStructuredDate] at h

/-- Mapping serialization then rehydration over a message list with
structured timestamps is the identity. -/
theorem map_rehydrate_serialize (ms : List RepositoryEntry)
    (hms : ∀ e ∈ ms, isStructuredDate e.message.createdAt = true) :
    (ms.map serializeEntry).map rehydrateEntry = ms := by
  induction ms with
  | nil => rfl
  | cons a as ih =>
    simp only [List.map_cons, List.cons.injEq]
    exact ⟨rehydrate_serialize_entry a (hms a (by simp)),
      ih (fun e he => hms e (by simp [he]))⟩

/-- C8: history round-trip — for every thread id, storage content and message
tree whose timestamps are structured time values, `replace` (that is,
`saveFullHistory` on an accepting medium) followed by `load` returns a tree
equal to the original: the text-serialized timestamps are rehydrated on load
to structured time values equal to the originals, and messages, parent links
and head pointer are carried through unchanged. -/
theorem c8_history_roundtrip (st : HistoryStorage) (threadId : String)
    (d : ExportedMessageRepository) (h : structuredTimestamps d) :
    load (saveFullHistory none st threadId (some d)).storage threadId = some d := by
  obtain ⟨msgs, hid⟩ := d
  simp only [saveFullHistory, setItem, load, serializeRepository, getRecord_setRecord_self]
  simp [map_rehydrate_serialize msgs h]

/-- C8 witness: the round trip on the spec's three-node chain
`[n1(parent=null), n2(parent=n1), n3(parent=n2)]` with `headId = n3`. -/
theorem c8_history_roundtrip_witness :
    structuredTimestamps chainTree ∧
    load (saveFullHistory none [] "thread-1" (some chainTree)).storage "thread-1"
      = some chainTree :=
  ⟨by decide, c8_history_roundtrip [] "thread-1" chainTree (by decide)⟩

/-- C3 counterexample: the claim says no Directory or History Store operation
that ends in a thrown error leaves behind a mutated or persisted state.  But
`getMainThreadRuntimeCore` on a directory whose main id has no metadata and
is not the default id (corrupted storage) first purges the id from both id
lists, persists that change, and only then throws `FatalInconsistency`: the
call errors, the state differs from the initial one, and a persist was
performed. -/
theorem c3_registry_purge_persists_then_throws :
    (getMainThreadRuntimeCore ghostMainState).res
      = Except.error DirError.fatalInconsistency ∧
    ¬ atomicOutcome (getMainThreadRuntimeCore ghostMainState) ghostMainState ∧
    (getMainThreadRuntimeCore ghostMainState).state ≠ ghostMainState ∧
    (getMainThreadRuntimeCore ghostMainState).state.threadIds = ["__DEFAULT_ID__"] ∧
    (getMainThreadRuntimeCore ghostMainState).effects = [Effect.persist] := by
  refine ⟨rfl, ?_, by decide, by decide, rfl⟩
  intro h
  exact absurd (h DirError.fatalInconsistency rfl).1 (by decide)

/-- Once metadata for the id exists, the fallible `unarchive` never throws a
Directory error of its own (it can still reject with a storage failure from
its persist). -/
theorem unarchiveF_no_dir_error (s : DirState) (threadId : String)
    (media : List PersistOutcome) (meta : ThreadMetadata)
    (h : getRecord s.threadMetadata threadId = some meta) (e : DirError) :
    (unarchiveF s threadId media).res ≠ Except.error (FDirError.dir e) := by
  by_cases h2 : threadId ∈ s.archivedThreadIds
  · cases hp : (persistStateF media).res <;> simp [unarchiveF, h, h2, hp]
  · simp [unarchiveF, h, h2]

/-- The fallible `unarchive` preserves the existence of the id's metadata
record (also when its persist is rejected: the in-memory mutation stays). -/
theorem unarchiveF_metadata_isSome (s : DirState) (threadId : String)
    (media : List PersistOutcome) (meta : ThreadMetadata)
    (h : getRecord s.threadMetadata threadId = some meta) :
    ∃ m, getRecord (unarchiveF s threadId media).state.threadMetadata threadId = some m := by
  by_cases h2 : threadId ∈ s.archivedThreadIds
  · by_cases h3 : threadId ∈ s.threadIds <;> cases hp : (persistStateF media).res <;>
      exact ⟨{ meta with status := "regular" },
        by simp [unarchiveF, h, h2, h3, hp, getRecord_setRecord_self]⟩
  · exact ⟨meta, by simp [unarchiveF, h, h2]⟩

/-- Once metadata for the id exists, the fallible `rename` never throws a
Directory error of its own. -/
theorem renameF_no_dir_error (s : DirState) (threadId newTitle : String)
    (media : List PersistOutcome) (meta : ThreadMetadata)
    (h : getRecord s.threadMetadata threadId = some meta) (e : DirError) :
    (renameF s threadId newTitle media).res ≠ Except.error (FDirError.dir e) := by
  cases hp : (persistStateF media).res <;> simp [renameF, h, hp]

/-- The fallible thread-initialization never throws a Directory error of its
own. -/
theorem initializeThreadF_no_dir_error (s : DirState) (threadId : String)
    (media : List PersistOutcome) (e : DirError) :
    (initializeThreadF s threadId media).res ≠ Except.error (FDirError.dir e) := by
  cases h : getRecord s.threadMetadata threadId with
  | some m => simp [initializeThreadF, h]
  | none =>
    by_cases h2 : threadId ∈ s.threadIds <;>
      cases hp : (persistStateF media).res <;> simp [initializeThreadF, h, h2, hp]

/-- After the fallible thread-initialization the id always has a metadata
record (even when the persist was rejected). -/
theorem initializeThreadF_metadata_isSome (s : DirState) (threadId : String)
    (media : List PersistOutcome) :
    ∃ m, getRecord (initializeThreadF s threadId media).state.threadMetadata threadId
      = some m := by
  cases h : getRecord s.threadMetadata threadId with
  | some m => exact ⟨m, by simp [initializeThreadF, h]⟩
  | none =>
    by_cases h2 : threadId ∈ s.threadIds <;> cases hp : (persistStateF media).res <;>
      exact ⟨{ threadId := threadId, status := "regular", title := "New Thread" },
        by simp [initializeThreadF, h, h2, hp, getRecord_setRecord_self]⟩

/-- The fallible registry access succeeds without consuming any medium
response or performing any effect whenever metadata for the id exists. -/
theorem getOrCreateThreadRuntimeF_ok_of_metadata (s : DirState) (threadId : String)
    (media : List PersistOutcome) (meta : ThreadMetadata)
    (h : getRecord s.threadMetadata threadId = some meta) :
    ∃ t, (getOrCreateThreadRuntimeF s threadId media).res = Except.ok t ∧
      (getOrCreateThreadRuntimeF s threadId media).effects = [] ∧
      (getOrCreateThreadRuntimeF s threadId media).media = media := by
  cases hinst : getRecord s.threadRuntimeInstances threadId with
  | some inst => exact ⟨inst, by simp [getOrCreateThreadRuntimeF, hinst]⟩
  | none =>
    exact ⟨s.nextRuntimeToken,
      by simp [getOrCreateThreadRuntimeF, hinst, h, createRuntimeF]⟩

/-- C3 (amended): against the real, fallible storage medium, every public
Directory mutation throws its own Directory errors (`InvalidOperation`,
`NotFound`) only during validation, before any in-memory change, key write,
notification or even a consumed medium response.  Once validation passes the
in-memory mutation is applied first and `persistState` runs last, so a
medium rejection during the persist makes the operation reject *after* the
completed in-memory mutation, with the keys preceding the failing write
already stored and no notification — demonstrated concretely by the closing
conjuncts: a quota rejection on the third key during `archive` surfaces as a
storage failure while the thread is archived in memory and two of the four
keys were written.  The History Store's `saveFullHistory` never rejects at
all (failures are swallowed, see C2).  The registry's purge path persists
before throwing `FatalInconsistency` (see the counterexample). -/
theorem c3_validation_errors_atomic (s : DirState) (threadId newTitle newId : String)
    (media : List PersistOutcome) :
    validationAtomic (archiveF s threadId media) s media ∧
    validationAtomic (unarchiveF s threadId media) s media ∧
    validationAtomic (renameF s threadId newTitle media) s media ∧
    validationAtomic (deleteF s threadId media) s media ∧
    validationAtomic (initializeThreadF s threadId media) s media ∧
    validationAtomic (generateTitleF s threadId media) s media ∧
    validationAtomic (switchToThreadF s threadId media) s media ∧
    validationAtomic (switchToNewThreadF s newId media) s media ∧
    (∀ failure st d, (saveFullHistory failure st threadId d).res = Except.ok ()) ∧
    (archiveF roundTripState "t1"
        [PersistOutcome.failAt 2 StorageFailure.quotaExceeded]).res
      = Except.error (FDirError.storage StorageFailure.quotaExceeded) ∧
    (archiveF roundTripState "t1"
        [PersistOutcome.failAt 2 StorageFailure.quotaExceeded]).state ≠ roundTripState ∧
    (archiveF roundTripState "t1"
        [PersistOutcome.failAt 2 StorageFailure.quotaExceeded]).state.archivedThreadIds
      = ["t1"] ∧
    (archiveF roundTripState "t1"
        [PersistOutcome.failAt 2 StorageFailure.quotaExceeded]).effects
      = [FEffect.write DirKey.mainKey, FEffect.write DirKey.idsKey] := by
  refine ⟨?_, ?_, ?_, ?_, ?_, ?_, ?_, ?_, ?_, rfl, by decide, by decide, rfl⟩
  · intro e he
    by_cases h1 : threadId = s.mainThreadId
    · simp [archiveF, h1] at he ⊢
    · cases h2 : getRecord s.threadMetadata threadId with
      | none => simp [archiveF, h1, h2] at he ⊢
      | some m =>
        by_cases h3 : threadId ∈ s.archivedThreadIds
        · simp [archiveF, h1, h2, h3] at he
        · cases hp : (persistStateF media).res <;> simp [archiveF, h1, h2, h3, hp] at he
  · intro e he
    cases h2 : getRecord s.threadMetadata threadId with
    | none => simp [unarchiveF, h2] at he ⊢
    | some m =>
      by_cases h3 : threadId ∈ s.archivedThreadIds
      · cases hp : (persistStateF media).res <;> simp [unarchiveF, h2, h3, hp] at he
      · simp [unarchiveF, h2, h3] at he
  · intro e he
    cases h2 : getRecord s.threadMetadata threadId with
    | none => simp [renameF, h2] at he ⊢
    | some m => cases hp : (persistStateF media).res <;> simp [renameF, h2, hp] at he
  · intro e he
    by_cases h1 : threadId = s.mainThreadId
    · simp [deleteF, h1] at he ⊢
    · cases h2 : getRecord s.threadMetadata threadId with
      | none => simp [deleteF, h1, h2] at he
      | some m => cases hp : (persistStateF media).res <;> simp [deleteF, h1, h2, hp] at he
  · intro e he
    exact absurd he (initializeThreadF_no_dir_error s threadId media e)
  · intro e he
    cases h2 : getRecord s.threadMetadata threadId with
    | none => simp [generateTitleF, h2] at he ⊢
    | some m =>
      by_cases h3 : m.title = "" ∨ m.title = "New Thread"
      · have heq : generateTitleF s threadId media
            = renameF s threadId (genTitleFor threadId) media := by
          simp [generateTitleF, h2, h3]
        rw [heq] at he
        exact absurd he (renameF_no_dir_error s threadId (genTitleFor threadId) media m h2 e)
      · simp [generateTitleF, h2, h3] at he
  · intro e he
    by_cases h1 : s.mainThreadId = threadId
    · simp [switchToThreadF, h1] at he
    cases h2 : getRecord s.threadMetadata threadId with
    | none => simp [switchToThreadF, h1, h2] at he ⊢
    | some m =>
      exfalso
      by_cases h3 : threadId ∈ s.archivedThreadIds
      · cases hr1 : (unarchiveF s threadId media).res with
        | error f =>
          cases f with
          | dir e2 => exact unarchiveF_no_dir_error s threadId media m h2 e2 hr1
          | storage sf => simp [switchToThreadF, h1, h2, h3, hr1] at he
        | ok u =>
          obtain ⟨m2, hm2⟩ := unarchiveF_metadata_isSome s threadId media m h2
          obtain ⟨t, hres2, heff2, hmed2⟩ :=
            getOrCreateThreadRuntimeF_ok_of_metadata
              { (unarchiveF s threadId media).state with mainThreadId := threadId }
              threadId (unarchiveF s threadId media).media m2 hm2
          cases hp : (persistStateF (getOrCreateThreadRuntimeF
              { (unarchiveF s threadId media).state with mainThreadId := threadId }
              threadId (unarchiveF s threadId media).media).media).res with
          | ok v => simp [switchToThreadF, h1, h2, h3, hr1, hres2, hp] at he
          | error f => simp [switchToThreadF, h1, h2, h3, hr1, hres2, hp] at he
      · obtain ⟨t, hres2, heff2, hmed2⟩ :=
          getOrCreateThreadRuntimeF_ok_of_metadata
            { s with mainThreadId := threadId } threadId media m h2
        cases hp : (persistStateF (getOrCreateThreadRuntimeF
            { s with mainThreadId := threadId } threadId media).media).res with
        | ok v => simp [switchToThreadF, h1, h2, h3, hres2, hp] at he
        | error f => simp [switchToThreadF, h1, h2, h3, hres2, hp] at he
  · intro e he
    exfalso
    cases hr1 : (initializeThreadF s newId media).res with
    | error f =>
      cases f with
      | dir e2 => exact initializeThreadF_no_dir_error s newId media e2 hr1
      | storage sf => simp [switchToNewThreadF, hr1] at he
    | ok v =>
      obtain ⟨m2, hm2⟩ := initializeThreadF_metadata_isSome s newId media
      obtain ⟨t, hres2, heff2, hmed2⟩ :=
        getOrCreateThreadRuntimeF_ok_of_metadata
          { (initializeThreadF s newId media).state with mainThreadId := newId }
          newId (initializeThreadF s newId media).media m2 hm2
      cases hp : (persistStateF (getOrCreateThreadRuntimeF
          { (initializeThreadF s newId media).state with mainThreadId := newId }
          newId (initializeThreadF s newId media).media).media).res with
      | ok w => simp [switchToNewThreadF, hr1, hres2, hp] at he
      | error f => simp [switchToNewThreadF, hr1, hres2, hp] at he
  · intro failure st d
    cases d with
    | none => rfl
    | some dd => cases failure with
      | none => rfl
      | some f => cases f <;> rfl

/-- C3 witness: archiving the unknown id `"nope"` on the concrete state
`plainState` (any medium) throws NotFound, and by the validation-atomicity
theorem the state, the effect trace and the medium supply are untouched. -/
theorem c3_validation_errors_atomic_witness :
    (archiveF plainState "nope" []).res = Except.error (FDirError.dir DirError.notFound) ∧
    (archiveF plainState "nope" []).state = plainState ∧
    (archiveF plainState "nope" []).effects = [] ∧
    (archiveF plainState "nope" []).media = [] :=
  ⟨rfl,
    ((c3_validation_errors_atomic plainState "nope" "title" "fresh" []).1
      DirError.notFound rfl).1,
    ((c3_validation_errors_atomic plainState "nope" "title" "fresh" []).1
      DirError.notFound rfl).2.1,
    ((c3_validation_errors_atomic plainState "nope" "title" "fresh" []).1
      DirError.notFound rfl).2.2⟩

/-! ## Bridge: the failure-free model is the accepting-medium restriction of
the fallible one.  Each `..F_accepting` lemma shows that on a medium that
accepts every write the fallible embedding returns the same result (with
Directory errors injected by `FDirError.dir`), the same state, and the
failure-free effect trace refined write-by-write. -/

theorem expandEffects_append (a b : List Effect) :
    expandEffects (a ++ b) = expandEffects a ++ expandEffects b := by
  induction a with
  | nil => simp [expandEffects]
  | cons x rest ih => cases x <;> simp [expandEffects, ih]

theorem getOrCreateThreadRuntimeF_accepting (s : DirState) (threadId : String) :
    (getOrCreateThreadRuntimeF s threadId []).res
      = (getOrCreateThreadRuntime s threadId).res.mapError FDirError.dir ∧
    (getOrCreateThreadRuntimeF s threadId []).state
      = (getOrCreateThreadRuntime s threadId).state ∧
    (getOrCreateThreadRuntimeF s threadId []).effects
      = expandEffects (getOrCreateThreadRuntime s threadId).effects ∧
    (getOrCreateThreadRuntimeF s threadId []).media = [] := by
  cases hinst : getRecord s.threadRuntimeInstances threadId with
  | some inst =>
    simp [getOrCreateThreadRuntimeF, getOrCreateThreadRuntime, hinst,
      Except.mapError, expandEffects]
  | none =>
    cases h : getRecord s.threadMetadata threadId with
    | some m =>
      simp [getOrCreateThreadRuntimeF, getOrCreateThreadRuntime, hinst, h,
        createRuntimeF, createRuntime, Except.mapError, expandEffects]
    | none =>
      by_cases hd : threadId = DEFAULT_THREAD_ID
      · subst hd
        by_cases hmem : DEFAULT_THREAD_ID ∈ s.threadIds <;>
          simp [getOrCreateThreadRuntimeF, getOrCreateThreadRuntime, hinst, h, hmem,
            createRuntimeF, createRuntime, persistStateF, Except.mapError, expandEffects]
      · simp [getOrCreateThreadRuntimeF, getOrCreateThreadRuntime, hinst, h, hd,
          persistStateF, Except.mapError, expandEffects]

theorem archiveF_accepting (s : DirState) (threadId : String) :
    (archiveF s threadId []).res = (archive s threadId).res.mapError FDirError.dir ∧
    (archiveF s threadId []).state = (archive s threadId).state ∧
    (archiveF s threadId []).effects = expandEffects (archive s threadId).effects ∧
    (archiveF s threadId []).media = [] := by
  by_cases h1 : threadId = s.mainThreadId
  · simp [archiveF, archive, h1, Except.mapError, expandEffects]
  · cases h2 : getRecord s.threadMetadata threadId with
    | none => simp [archiveF, archive, h1, h2, Except.mapError, expandEffects]
    | some m =>
      by_cases h3 : threadId ∈ s.archivedThreadIds <;>
        simp [archiveF, archive, h1, h2, h3, persistStateF, Except.mapError, expandEffects]

theorem unarchiveF_accepting (s : DirState) (threadId : String) :
    (unarchiveF s threadId []).res = (unarchive s threadId).res.mapError FDirError.dir ∧
    (unarchiveF s threadId []).state = (unarchive s threadId).state ∧
    (unarchiveF s threadId []).effects = expandEffects (unarchive s threadId).effects ∧
    (unarchiveF s threadId []).media = [] := by
  cases h2 : getRecord s.threadMetadata threadId with
  | none => simp [unarchiveF, unarchive, h2, Except.mapError, expandEffects]
  | some m =>
    by_cases h3 : threadId ∈ s.archivedThreadIds
    · by_cases h4 : threadId ∈ s.threadIds <;>
        simp [unarchiveF, unarchive, h2, h3, h4, persistStateF, Except.mapError, expandEffects]
    · simp [unarchiveF, unarchive, h2, h3, Except.mapError, expandEffects]

theorem renameF_accepting (s : DirState) (threadId newTitle : String) :
    (renameF s threadId newTitle []).res
      = (rename s threadId newTitle).res.mapError FDirError.dir ∧
    (renameF s threadId newTitle []).state = (rename s threadId newTitle).state ∧
    (renameF s threadId newTitle []).effects
      = expandEffects (rename s threadId newTitle).effects ∧
    (renameF s threadId newTitle []).media = [] := by
  cases h2 : getRecord s.threadMetadata threadId with
  | none => simp [renameF, rename, h2, Except.mapError, expandEffects]
  | some m => simp [renameF, rename, h2, persistStateF, Except.mapError, expandEffects]

theorem deleteF_accepting (s : DirState) (threadId : String) :
    (deleteF s threadId []).res = (delete s threadId).res.mapError FDirError.dir ∧
    (deleteF s threadId []).state = (delete s threadId).state ∧
    (deleteF s threadId []).effects = expandEffects (delete s threadId).effects ∧
    (deleteF s threadId []).media = [] := by
  by_cases h1 : threadId = s.mainThreadId
  · simp [deleteF, delete, h1, Except.mapError, expandEffects]
  · cases h2 : getRecord s.threadMetadata threadId with
    | none => simp [deleteF, delete, h1, h2, Except.mapError, expandEffects]
    | some m => simp [deleteF, delete, h1, h2, persistStateF, Except.mapError, expandEffects]

theorem initializeThreadF_accepting (s : DirState) (threadId : String) :
    (initializeThreadF s threadId []).res
      = (initializeThread s threadId).res.mapError FDirError.dir ∧
    (initializeThreadF s threadId []).state = (initializeThread s threadId).state ∧
    (initializeThreadF s threadId []).effects
      = expandEffects (initializeThread s threadId).effects ∧
    (initializeThreadF s threadId []).media = [] := by
  cases h : getRecord s.threadMetadata threadId with
  | some m => simp [initializeThreadF, initializeThread, h, Except.mapError, expandEffects]
  | none =>
    by_cases h2 : threadId ∈ s.threadIds <;>
      simp [initializeThreadF, initializeThread, h, h2, persistStateF,
        Except.mapError, expandEffects]

theorem generateTitleF_accepting (s : DirState) (threadId : String) :
    (generateTitleF s threadId []).res
      = (generateTitle s threadId).res.mapError FDirError.dir ∧
    (generateTitleF s threadId []).state = (generateTitle s threadId).state ∧
    (generateTitleF s threadId []).effects
      = expandEffects (generateTitle s threadId).effects ∧
    (generateTitleF s threadId []).media = [] := by
  cases h : getRecord s.threadMetadata threadId with
  | none => simp [generateTitleF, generateTitle, h, Except.mapError, expandEffects]
  | some m =>
    by_cases h3 : m.title = "" ∨ m.title = "New Thread"
    · have heqF : generateTitleF s threadId []
          = renameF s threadId (genTitleFor threadId) [] := by
        simp [generateTitleF, h, h3]
      have heq : generateTitle s threadId = rename s threadId (genTitleFor threadId) := by
        simp [generateTitle, h, h3]
      rw [heqF, heq]
      exact renameF_accepting s threadId (genTitleFor threadId)
    · simp [generateTitleF, generateTitle, h, h3, Except.mapError, expandEffects]

/-- The failure-free `unarchive` never throws once metadata for the id
exists. -/
theorem unarchive_res_ok (s : DirState) (threadId : String) (meta : ThreadMetadata)
    (h : getRecord s.threadMetadata threadId = some meta) :
    (unarchive s threadId).res = Except.ok () := by
  by_cases h2 : threadId ∈ s.archivedThreadIds <;> simp [unarchive, h, h2]

/-- The failure-free `unarchive` preserves the existence of the id's metadata
record. -/
theorem unarchive_metadata_isSome (s : DirState) (threadId : String) (meta : ThreadMetadata)
    (h : getRecord s.threadMetadata threadId = some meta) :
    ∃ m, getRecord (unarchive s threadId).state.threadMetadata threadId = some m := by
  by_cases h2 : threadId ∈ s.archivedThreadIds
  · by_cases h3 : threadId ∈ s.threadIds <;>
      exact ⟨{ meta with status := "regular" },
        by simp [unarchive, h, h2, h3, getRecord_setRecord_self]⟩
  · exact ⟨meta, by simp [unarchive, h, h2]⟩

/-- The failure-free thread-initialization never throws. -/
theorem initializeThread_res_ok (s : DirState) (threadId : String) :
    (initializeThread s threadId).res
      = Except.ok { remoteId := threadId, externalId := none } := by
  cases h : getRecord s.threadMetadata threadId with
  | some m => simp [initializeThread, h]
  | none => by_cases h2 : threadId ∈ s.threadIds <;> simp [initializeThread, h, h2]

/-- After the failure-free thread-initialization the id always has a metadata
record. -/
theorem initializeThread_metadata_isSome (s : DirState) (threadId : String) :
    ∃ m, getRecord (initializeThread s threadId).state.threadMetadata threadId = some m := by
  cases h : getRecord s.threadMetadata threadId with
  | some m => exact ⟨m, by simp [initializeThread, h]⟩
  | none =>
    by_cases h2 : threadId ∈ s.threadIds <;>
      exact ⟨{ threadId := threadId, status := "regular", title := "New Thread" },
        by simp [initializeThread, h, h2, getRecord_setRecord_self]⟩

theorem switchToThreadF_accepting (s : DirState) (threadId : String) :
    (switchToThreadF s threadId []).res
      = (switchToThread s threadId).res.mapError FDirError.dir ∧
    (switchToThreadF s threadId []).state = (switchToThread s threadId).state ∧
    (switchToThreadF s threadId []).effects
      = expandEffects (switchToThread s threadId).effects ∧
    (switchToThreadF s threadId []).media = [] := by
  by_cases h1 : s.mainThreadId = threadId
  · simp [switchToThreadF, switchToThread, h1, Except.mapError, expandEffects]
  cases h2 : getRecord s.threadMetadata threadId with
  | none => simp [switchToThreadF, switchToThread, h1, h2, Except.mapError, expandEffects]
  | some m =>
    by_cases h3 : threadId ∈ s.archivedThreadIds
    · obtain ⟨hres1, hstate1, heff1, hmed1⟩ := unarchiveF_accepting s threadId
      have hok1 : (unarchive s threadId).res = Except.ok () := unarchive_res_ok s threadId m h2
      have hok1F : (unarchiveF s threadId []).res = Except.ok () := by
        rw [hres1, hok1]; rfl
      obtain ⟨m2, hm2⟩ := unarchive_metadata_isSome s threadId m h2
      obtain ⟨tok, hres2, heff2, -, -, -, -, -⟩ :=
        getOrCreateThreadRuntime_spec
          { (unarchive s threadId).state with mainThreadId := threadId } threadId m2 hm2
      obtain ⟨hres2eq, hstate2, heff2F, hmed2⟩ :=
        getOrCreateThreadRuntimeF_accepting
          { (unarchive s threadId).state with mainThreadId := threadId } threadId
      simp only [switchToThreadF, switchToThread, h1, if_false, h2, h3, if_true]
      rw [hstate1, hmed1]
      simp only [hok1F, hok1, hres2eq, hres2, Except.mapError]
      rw [hmed2]
      simp [persistStateF, hstate2, heff2F, heff1, heff2, expandEffects_append,
        expandEffects, Except.mapError]
    · obtain ⟨tok, hres2, heff2, -, -, -, -, -⟩ :=
        getOrCreateThreadRuntime_spec
          { s with mainThreadId := threadId } threadId m h2
      obtain ⟨hres2eq, hstate2, heff2F, hmed2⟩ :=
        getOrCreateThreadRuntimeF_accepting { s with mainThreadId := threadId } threadId
      simp only [switchToThreadF, switchToThread, h1, if_false, h2, h3, if_true]
      simp only [hres2eq, hres2, Except.mapError]
      rw [hmed2]
      simp [persistStateF, hstate2, heff2F, heff2, expandEffects_append,
        expandEffects, Except.mapError]

theorem switchToNewThreadF_accepting (s : DirState) (newId : String) :
    (switchToNewThreadF s newId []).res
      = (switchToNewThread s newId).res.mapError FDirError.dir ∧
    (switchToNewThreadF s newId []).state = (switchToNewThread s newId).state ∧
    (switchToNewThreadF s newId []).effects
      = expandEffects (switchToNewThread s newId).effects ∧
    (switchToNewThreadF s newId []).media = [] := by
  obtain ⟨hres1, hstate1, heff1, hmed1⟩ := initializeThreadF_accepting s newId
  have hok1 : (initializeThread s newId).res
      = Except.ok { remoteId := newId, externalId := none } :=
    initializeThread_res_ok s newId
  have hok1F : (initializeThreadF s newId []).res
      = Except.ok { remoteId := newId, externalId := none } := by
    rw [hres1, hok1]; rfl
  obtain ⟨m2, hm2⟩ := initializeThread_metadata_isSome s newId
  obtain ⟨tok, hres2, heff2, -, -, -, -, -⟩ :=
    getOrCreateThreadRuntime_spec
      { (initializeThread s newId).state with mainThreadId := newId } newId m2 hm2
  obtain ⟨hres2eq, hstate2, heff2F, hmed2⟩ :=
    getOrCreateThreadRuntimeF_accepting
      { (initializeThread s newId).state with mainThreadId := newId } newId
  simp only [switchToNewThreadF, switchToNewThread]
  rw [hstate1, hmed1]
  simp only [hok1F, hok1, hres2eq, hres2, Except.mapError]
  rw [hmed2]
  simp [persistStateF, hstate2, heff2F, heff1, heff2, expandEffects_append,
    expandEffects, Except.mapError]
